import Mathlib

/-!
Verification of the CSV comparison utility (`src/app.py`).

The program has two logic functions plus a summary-statistics formula:

* `combine_dataframes(uploaded_files, column_name)` — returns `None` on an
  empty file list; otherwise parses each file, optionally restricts it to the
  single column `column_name` (when `column_name` is truthy, i.e. neither
  `None` nor the empty string; a missing column raises a `KeyError`), and
  concatenates the frames with `pd.concat(dfs, ignore_index=True)`.  `pd.concat`
  on frames with differing column sets takes the outer union of the columns
  (in order of first appearance) and pads missing entries with null.
* `compare_csv_columns(df1, df2, col1_name, col2_name)` — builds
  `set(df1[col1_name].unique())` and returns
  `df2[~df2[col2_name].isin(reference_values)]`, a positional boolean-mask
  filter of the target rows.  A missing column raises a `KeyError`.
  pandas `isin` matches NaN against NaN, so null behaves as an ordinary value.
* `overlap_percentage = ((len(df2) - len(result_df)) / len(df2)) * 100`,
  computed only when `len(df2) > 0`.

We embed tables as an explicit column list plus rows given as association
lists from column name to scalar value, and the two functions as pure Lean
functions returning `Except` for the failure cases.
-/

set_option autoImplicit false

namespace CsvComp

/-- A scalar cell value as produced by the CSV parser: null (NaN), a string,
or a number.  pandas `isin` matches NaN against NaN, so equality on `null`
is ordinary reflexive equality. -/
inductive Value where
  | null : Value
  | str : String → Value
  | int : Int → Value
  deriving DecidableEq, Repr

/-- A row: a finite mapping from column name to value, as an association list
in column order. -/
abbrev Row := List (String × Value)

/-- Look up column `c` in a row (first occurrence wins, as in pandas with
unique column labels). -/
def rowLookup (c : String) : Row → Option Value
  | [] => none
  | (k, v) :: r => if k = c then some v else rowLookup c r

/-- A DataFrame: an ordered column list and an ordered list of rows.  In a
well-formed frame every row has exactly the frame's columns as keys. -/
structure DataFrame where
  cols : List String
  rows : List Row
  deriving DecidableEq, Repr

/-- Well-formedness: each row's key list is exactly the column list. -/
def DataFrame.WF (df : DataFrame) : Prop :=
  ∀ r ∈ df.rows, r.map Prod.fst = df.cols

/-- The series of values of column `c`, one per row, in row order; `none` if
some row lacks the column (cannot happen in a well-formed frame). -/
def colSeries (c : String) : List Row → Option (List Value)
  | [] => some []
  | r :: rs =>
    match rowLookup c r, colSeries c rs with
    | some v, some vs => some (v :: vs)
    | _, _ => none

/-- `df[c]` as a series: fails (pandas `KeyError`) when `c` is not among the
frame's columns. -/
def getCol (df : DataFrame) (c : String) : Option (List Value) :=
  if c ∈ df.cols then colSeries c df.rows else none

/-- Failure of `compare_csv_columns`: a selected column is absent
(`KeyError` in the source, `ColumnNotFound` in the spec). -/
inductive CompareError where
  | columnNotFound : String → CompareError
  deriving DecidableEq, Repr

/-- `df[mask]` for a boolean mask aligned positionally with the rows: keep
exactly the rows whose mask entry is `true`, in order. -/
def maskFilter : List Row → List Bool → List Row
  | [], _ => []
  | _ :: _, [] => []
  | r :: rs, b :: bs => if b then r :: maskFilter rs bs else maskFilter rs bs

/-- `compare_csv_columns(df1, df2, col1_name, col2_name)` from `src/app.py`:
`reference_values = set(df1[col1_name].unique())` and the result is
`df2[~df2[col2_name].isin(reference_values)]`. -/
def compare_csv_columns (df1 df2 : DataFrame) (col1_name col2_name : String) :
    Except CompareError DataFrame :=
  match getCol df1 col1_name with
  | none => .error (.columnNotFound col1_name)
  | some refCol =>
    match getCol df2 col2_name with
    | none => .error (.columnNotFound col2_name)
    | some tgtCol =>
      let referenceValues := refCol.dedup
      .ok ⟨df2.cols, maskFilter df2.rows
            (tgtCol.map (fun v => !decide (v ∈ referenceValues)))⟩

/-- Failure of `combine_dataframes`: the requested filter column is absent
from some file (`KeyError` in the source, `SchemaMismatch` in the spec). -/
inductive CombineError where
  | schemaMismatch : String → CombineError
  deriving DecidableEq, Repr

/-- Re-index a row onto a target column list, padding missing columns with
null — the per-row effect of `pd.concat`'s outer column union. -/
def padRow (cols : List String) (r : Row) : Row :=
  cols.map (fun c => (c, (rowLookup c r).getD Value.null))

/-- Append the new names of `cs` to `acc`, keeping first-appearance order:
the column-label union performed by `pd.concat(..., sort=False)`. -/
def appendCols (acc : List String) (cs : List String) : List String :=
  cs.foldl (fun a c => if c ∈ a then a else a ++ [c]) acc

/-- `pd.concat(dfs, ignore_index=True)`: outer union of the column sets in
order of first appearance, rows concatenated in input order, each row padded
with null in the columns its source frame lacks, index reassigned (rows are
positional here, so reassignment is implicit). -/
def concatDFs (dfs : List DataFrame) : DataFrame :=
  let cols := dfs.foldl (fun acc df => appendCols acc df.cols) []
  ⟨cols, (dfs.map (fun df => df.rows.map (padRow cols))).flatten⟩

/-- `df[[c]]`: restrict a frame to the single column `c` (caller has checked
that `c` is present). -/
def selectCol (df : DataFrame) (c : String) : DataFrame :=
  ⟨[c], df.rows.map (fun r => [(c, (rowLookup c r).getD Value.null)])⟩

/-- The per-file body of `combine_dataframes`' loop: parse (already done in
the embedding), then `if column_name: df = df[[column_name]]`.  The Python
truthiness test makes both `None` and `""` skip the filter; a present but
missing column raises `KeyError` (`SchemaMismatch`). -/
def filterFile (column_name : Option String) (df : DataFrame) :
    Except CombineError DataFrame :=
  match column_name with
  | none => .ok df
  | some c =>
    if c.isEmpty then .ok df
    else if c ∈ df.cols then .ok (selectCol df c)
    else .error (.schemaMismatch c)

/-- Run `filterFile` over the files in order, stopping at the first failure
(the Python loop raises out of its first failing iteration). -/
def mapFiles (column_name : Option String) : List DataFrame →
    Except CombineError (List DataFrame)
  | [] => .ok []
  | f :: fs =>
    match filterFile column_name f, mapFiles column_name fs with
    | .error e, _ => .error e
    | .ok d, .ok ds => .ok (d :: ds)
    | .ok _, .error e => .error e

/-- `combine_dataframes(uploaded_files, column_name)` from `src/app.py`:
`None` (here `.ok none`) on an empty list, otherwise filter each frame and
concatenate. -/
def combine_dataframes (files : List DataFrame) (column_name : Option String) :
    Except CombineError (Option DataFrame) :=
  if files.isEmpty then .ok none
  else (mapFiles column_name files).map (fun dfs => some (concatDFs dfs))

/-- The match-rate computation of the UI (`src/app.py` lines 126–128):
`((len(df2) - len(result_df)) / len(df2)) * 100`, computed only when
`len(df2) > 0` and otherwise not reported. -/
def overlap_percentage (df2 result_df : DataFrame) : Option ℚ :=
  if 0 < df2.rows.length then
    some ((((df2.rows.length : ℚ) - (result_df.rows.length : ℚ)) /
      (df2.rows.length : ℚ)) * 100)
  else none

/-- The row predicate that `compare_csv_columns`' boolean mask implements:
keep row `r` when its target-column value is not in the reference set. -/
def keepRow (s : List Value) (c : String) (r : Row) : Bool :=
  !decide ((rowLookup c r).getD Value.null ∈ s)

/-! ### Concrete example frames (the spec's end-to-end scenario and small
frames for boundary and error cases) -/

/-- Reference group of the spec's end-to-end scenario: column `name` with
values John, Mary, Bob. -/
def refDF : DataFrame :=
  ⟨["name"], [[("name", Value.str "John")], [("name", Value.str "Mary")],
              [("name", Value.str "Bob")]]⟩

/-- Target group of the spec's end-to-end scenario: column `name` with
values John, Mary, Sarah, Mike. -/
def tgtDF : DataFrame :=
  ⟨["name"], [[("name", Value.str "John")], [("name", Value.str "Mary")],
              [("name", Value.str "Sarah")], [("name", Value.str "Mike")]]⟩

/-- The expected diff result of the scenario: the Sarah and Mike rows. -/
def resDF : DataFrame :=
  ⟨["name"], [[("name", Value.str "Sarah")], [("name", Value.str "Mike")]]⟩

/-- A frame with column `name` and no rows. -/
def emptyDF : DataFrame := ⟨["name"], []⟩

/-- A one-column frame with column `a`. -/
def dfA : DataFrame := ⟨["a"], [[("a", Value.int 1)]]⟩

/-- A one-column frame with column `b` (column set differing from `dfA`). -/
def dfB : DataFrame := ⟨["b"], [[("b", Value.int 2)]]⟩

/-- A reference frame whose column `x` contains a null. -/
def refNullDF : DataFrame := ⟨["x"], [[("x", Value.null)]]⟩

/-- A target frame whose column `x` contains a null and an ordinary value. -/
def tgtNullDF : DataFrame := ⟨["x"], [[("x", Value.null)], [("x", Value.int 5)]]⟩

/-! ### Helper lemmas -/

theorem colSeries_length {c : String} :
    ∀ {rows : List Row} {vals : List Value},
      colSeries c rows = some vals → vals.length = rows.length := by
  intro rows
  induction rows with
  | nil => intro vals h; simp [colSeries] at h; simp [h.symm]
  | cons r rs ih =>
    intro vals h
    simp only [colSeries] at h
    cases hl : rowLookup c r with
    | none => rw [hl] at h; simp at h
    | some v =>
      rw [hl] at h
      cases hs : colSeries c rs with
      | none => rw [hs] at h; simp at h
      | some vs =>
        rw [hs] at h
        simp only [Option.some.injEq] at h
        subst h
        simp [ih hs]

theorem colSeries_lookup_isSome {c : String} :
    ∀ {rows : List Row} {vals : List Value},
      colSeries c rows = some vals → ∀ r ∈ rows, (rowLookup c r).isSome := by
  intro rows
  induction rows with
  | nil => intro vals _ r hr; simp at hr
  | cons r rs ih =>
    intro vals h r' hr'
    simp only [colSeries] at h
    cases hl : rowLookup c r with
    | none => rw [hl] at h; simp at h
    | some v =>
      rw [hl] at h
      cases hs : colSeries c rs with
      | none => rw [hs] at h; simp at h
      | some vs =>
        rcases List.mem_cons.mp hr' with rfl | hmem
        · simp [hl]
        · exact ih hs r' hmem

theorem colSeries_isSome_of_forall {c : String} :
    ∀ {rows : List Row}, (∀ r ∈ rows, (rowLookup c r).isSome) →
      (colSeries c rows).isSome := by
  intro rows
  induction rows with
  | nil => intro _; simp [colSeries]
  | cons r rs ih =>
    intro h
    have hr : (rowLookup c r).isSome := h r (List.mem_cons_self r rs)
    have hrs : (colSeries c rs).isSome := ih (fun r' hr' => h r' (List.mem_cons_of_mem r hr'))
    rcases Option.isSome_iff_exists.mp hr with ⟨v, hv⟩
    rcases Option.isSome_iff_exists.mp hrs with ⟨vs, hvs⟩
    simp [colSeries, hv, hvs]

theorem colSeries_mem_of_lookup {c : String} :
    ∀ {rows : List Row} {vals : List Value},
      colSeries c rows = some vals →
      ∀ {r : Row} {v : Value}, r ∈ rows → rowLookup c r = some v → v ∈ vals := by
  intro rows
  induction rows with
  | nil => intro vals _ r v hr; simp at hr
  | cons r rs ih =>
    intro vals h r' v hr' hlv
    simp only [colSeries] at h
    cases hl : rowLookup c r with
    | none => rw [hl] at h; simp at h
    | some w =>
      rw [hl] at h
      cases hs : colSeries c rs with
      | none => rw [hs] at h; simp at h
      | some vs =>
        rw [hs] at h
        simp only [Option.some.injEq] at h
        subst h
        rcases List.mem_cons.mp hr' with rfl | hmem
        · rw [hl] at hlv
          simp only [Option.some.injEq] at hlv
          simp [hlv]
        · exact List.mem_cons_of_mem _ (ih hs hmem hlv)

/-- The positional mask filter used by `compare_csv_columns` coincides with a
plain stable `List.filter` by the row predicate `keepRow`. -/
theorem maskFilter_eq_filter {c : String} {s : List Value} :
    ∀ {rows : List Row} {vals : List Value},
      colSeries c rows = some vals →
      maskFilter rows (vals.map (fun v => !decide (v ∈ s))) =
        rows.filter (keepRow s c) := by
  intro rows
  induction rows with
  | nil => intro vals h; simp [colSeries] at h; simp [h.symm, maskFilter]
  | cons r rs ih =>
    intro vals h
    simp only [colSeries] at h
    cases hl : rowLookup c r with
    | none => rw [hl] at h; simp at h
    | some v =>
      rw [hl] at h
      cases hs : colSeries c rs with
      | none => rw [hs] at h; simp at h
      | some vs =>
        rw [hs] at h
        simp only [Option.some.injEq] at h
        subst h
        simp only [List.map_cons, maskFilter, List.filter_cons]
        have hk : keepRow s c r = !decide (v ∈ s) := by
          simp [keepRow, hl]
        rw [hk, ih hs]

/-- Successful run of `compare_csv_columns`, described as a stable filter. -/
theorem compare_ok {df1 df2 : DataFrame} {c1 c2 : String}
    {refVals tgtVals : List Value}
    (href : getCol df1 c1 = some refVals) (htgt : getCol df2 c2 = some tgtVals) :
    compare_csv_columns df1 df2 c1 c2 =
      .ok ⟨df2.cols, df2.rows.filter (keepRow refVals.dedup c2)⟩ := by
  have hcs : colSeries c2 df2.rows = some tgtVals := by
    by_cases hc : c2 ∈ df2.cols
    · simpa [getCol, hc] using htgt
    · simp [getCol, hc] at htgt
  rw [compare_csv_columns, href, htgt]
  simp only [Except.ok.injEq]
  congr 1
  exact maskFilter_eq_filter hcs

/-- Inversion: any successful run of `compare_csv_columns` is a stable filter
of the target rows by the reference value set. -/
theorem compare_ok_inv {df1 df2 : DataFrame} {c1 c2 : String} {res : DataFrame}
    (h : compare_csv_columns df1 df2 c1 c2 = .ok res) :
    ∃ refVals tgtVals, getCol df1 c1 = some refVals ∧
      getCol df2 c2 = some tgtVals ∧
      res = ⟨df2.cols, df2.rows.filter (keepRow refVals.dedup c2)⟩ := by
  cases href : getCol df1 c1 with
  | none => rw [compare_csv_columns, href] at h; simp at h
  | some refVals =>
    cases htgt : getCol df2 c2 with
    | none => rw [compare_csv_columns, href, htgt] at h; simp at h
    | some tgtVals =>
      refine ⟨refVals, tgtVals, rfl, rfl, ?_⟩
      have := compare_ok href htgt
      rw [this] at h
      exact (Except.ok.injEq _ _ ▸ h).symm

/-! ### Claim theorems -/

/-- C1: for every reference table, target table and column names, a
successful `compare_csv_columns` run returns exactly the target rows whose
target-column value is absent from the reference column's value set: every
result row's value is not in the set, and every target row left out of the
result has its value in the set. -/
theorem diff_partition (df1 df2 : DataFrame) (c1 c2 : String) (res : DataFrame)
    (refVals : List Value)
    (h : compare_csv_columns df1 df2 c1 c2 = .ok res)
    (href : getCol df1 c1 = some refVals) :
    (∀ r ∈ res.rows, (rowLookup c2 r).getD Value.null ∉ refVals) ∧
    (∀ r ∈ df2.rows, r ∉ res.rows → (rowLookup c2 r).getD Value.null ∈ refVals) := by
  rcases compare_ok_inv h with ⟨rv, tv, hrv, htv, hres⟩
  rw [href] at hrv
  injection hrv with hrv
  subst hrv
  subst hres
  constructor
  · intro r hr
    have hk := (List.mem_filter.mp hr).2
    simp only [keepRow, Bool.not_eq_true', decide_eq_false_iff_not,
      List.mem_dedup] at hk
    exact hk
  · intro r hr hnot
    by_contra hmem
    exact hnot (List.mem_filter.mpr ⟨hr, by
      simp only [keepRow, Bool.not_eq_true', decide_eq_false_iff_not,
        List.mem_dedup]
      exact hmem⟩)

/-- C3: the result of a successful `compare_csv_columns` run is a stable
filter of the target: same columns, and the result rows form a sublist
(order-preserving sub-sequence of unchanged rows) of the target's rows. -/
theorem diff_stable_subsequence (df1 df2 : DataFrame) (c1 c2 : String)
    (res : DataFrame)
    (h : compare_csv_columns df1 df2 c1 c2 = .ok res) :
    res.cols = df2.cols ∧ res.rows.Sublist df2.rows := by
  rcases compare_ok_inv h with ⟨rv, tv, _, _, hres⟩
  subst hres
  exact ⟨rfl, List.filter_sublist _⟩

/-- C4: boundary behaviour of `compare_csv_columns`: with an empty reference
table (and valid columns) the result is the whole target, row-for-row; with
an empty target table the result is empty. -/
theorem diff_empty_boundaries (df1 df2 : DataFrame) (c1 c2 : String) :
    (df1.rows = [] → c1 ∈ df1.cols → (∃ tv, getCol df2 c2 = some tv) →
      compare_csv_columns df1 df2 c1 c2 = .ok ⟨df2.cols, df2.rows⟩) ∧
    (df2.rows = [] → c2 ∈ df2.cols → (∃ rv, getCol df1 c1 = some rv) →
      compare_csv_columns df1 df2 c1 c2 = .ok ⟨df2.cols, []⟩) := by
  constructor
  · rintro hR hc1 ⟨tv, htv⟩
    have href : getCol df1 c1 = some [] := by
      simp [getCol, hc1, hR, colSeries]
    have hfull : df2.rows.filter (keepRow (List.dedup ([] : List Value)) c2) =
        df2.rows := by
      apply List.filter_eq_self.mpr
      intro r _
      simp [keepRow]
    rw [compare_ok href htv, hfull]
  · rintro hT hc2 ⟨rv, hrv⟩
    have htgt : getCol df2 c2 = some [] := by
      simp [getCol, hc2, hT, colSeries]
    rw [compare_ok hrv htgt, hT]
    simp

/-- C5: `compare_csv_columns` treats null as an ordinary value: a null
appearing in the reference column is a member of the reference value set,
and a target row whose selected value is null is excluded from the result
exactly when null is in that set. -/
theorem diff_null_ordinary (df1 df2 : DataFrame) (c1 c2 : String)
    (res : DataFrame) (refVals : List Value)
    (h : compare_csv_columns df1 df2 c1 c2 = .ok res)
    (href : getCol df1 c1 = some refVals) :
    (∀ r ∈ df1.rows, rowLookup c1 r = some Value.null → Value.null ∈ refVals) ∧
    (∀ r ∈ df2.rows, rowLookup c2 r = some Value.null →
      (r ∉ res.rows ↔ Value.null ∈ refVals)) := by
  rcases compare_ok_inv h with ⟨rv, tv, hrv, htv, hres⟩
  rw [href] at hrv
  injection hrv with hrv
  subst hrv
  subst hres
  have hc1 : c1 ∈ df1.cols := by
    by_contra hc
    simp [getCol, hc] at href
  have hcs1 : colSeries c1 df1.rows = some refVals := by
    simpa [getCol, hc1] using href
  constructor
  · intro r hr hl
    exact colSeries_mem_of_lookup hcs1 hr hl
  · intro r hr hl
    constructor
    · intro hnot
      by_contra hmem
      exact hnot (List.mem_filter.mpr ⟨hr, by
        simp only [keepRow, hl, Option.getD_some, Bool.not_eq_true',
          decide_eq_false_iff_not, List.mem_dedup]
        exact hmem⟩)
    · intro hmem hin
      have hk := (List.mem_filter.mp hin).2
      simp only [keepRow, hl, Option.getD_some, Bool.not_eq_true',
        decide_eq_false_iff_not, List.mem_dedup] at hk
      exact hk hmem

/-- C6: `compare_csv_columns` is idempotent: running the diff again with the
same reference and columns on an already-filtered result changes nothing. -/
theorem diff_idempotent (df1 df2 : DataFrame) (c1 c2 : String) (res : DataFrame)
    (h : compare_csv_columns df1 df2 c1 c2 = .ok res) :
    compare_csv_columns df1 res c1 c2 = .ok res := by
  rcases compare_ok_inv h with ⟨rv, tv, hrv, htv, hres⟩
  have hc2 : c2 ∈ df2.cols := by
    by_contra hc
    simp [getCol, hc] at htv
  have hcs : colSeries c2 df2.rows = some tv := by
    simpa [getCol, hc2] using htv
  have hall : ∀ r ∈ df2.rows.filter (keepRow rv.dedup c2),
      (rowLookup c2 r).isSome := by
    intro r hr
    exact colSeries_lookup_isSome hcs r (List.mem_of_mem_filter hr)
  rcases Option.isSome_iff_exists.mp (colSeries_isSome_of_forall hall)
    with ⟨tv2, htv2⟩
  have hget : getCol res c2 = some tv2 := by
    subst hres
    simpa [getCol, hc2] using htv2
  rw [compare_ok hrv hget]
  subst hres
  simp only [Except.ok.injEq]
  congr 1
  rw [List.filter_filter]
  apply List.filter_congr
  intro r _
  exact Bool.and_self _

/-- Witness for C1 at the spec's end-to-end scenario. -/
theorem diff_partition_witness :
    (∀ r ∈ resDF.rows, (rowLookup "name" r).getD Value.null ∉
        [Value.str "John", Value.str "Mary", Value.str "Bob"]) ∧
    (∀ r ∈ tgtDF.rows, r ∉ resDF.rows → (rowLookup "name" r).getD Value.null ∈
        [Value.str "John", Value.str "Mary", Value.str "Bob"]) :=
  diff_partition refDF tgtDF "name" "name" resDF
    [Value.str "John", Value.str "Mary", Value.str "Bob"] (by rfl) (by rfl)

/-- Witness for C3 at the spec's end-to-end scenario. -/
theorem diff_stable_subsequence_witness :
    resDF.cols = tgtDF.cols ∧ resDF.rows.Sublist tgtDF.rows :=
  diff_stable_subsequence refDF tgtDF "name" "name" resDF (by rfl)

/-- Witness for C4: an empty reference leaves the target unchanged, and an
empty target yields an empty result. -/
theorem diff_empty_boundaries_witness :
    compare_csv_columns emptyDF tgtDF "name" "name" =
        .ok ⟨tgtDF.cols, tgtDF.rows⟩ ∧
    compare_csv_columns refDF emptyDF "name" "name" =
        .ok ⟨emptyDF.cols, []⟩ :=
  ⟨(diff_empty_boundaries emptyDF tgtDF "name" "name").1 rfl (by decide)
      ⟨_, rfl⟩,
   (diff_empty_boundaries refDF emptyDF "name" "name").2 rfl (by decide)
      ⟨_, rfl⟩⟩

/-- Witness for C5 on frames containing nulls. -/
theorem diff_null_ordinary_witness :
    (∀ r ∈ refNullDF.rows, rowLookup "x" r = some Value.null →
        Value.null ∈ [Value.null]) ∧
    (∀ r ∈ tgtNullDF.rows, rowLookup "x" r = some Value.null →
      (r ∉ (⟨["x"], [[("x", Value.int 5)]]⟩ : DataFrame).rows ↔
        Value.null ∈ [Value.null])) :=
  diff_null_ordinary refNullDF tgtNullDF "x" "x"
    ⟨["x"], [[("x", Value.int 5)]]⟩ [Value.null] (by rfl) (by rfl)

/-- Witness for C6 at the spec's end-to-end scenario. -/
theorem diff_idempotent_witness :
    compare_csv_columns refDF resDF "name" "name" = .ok resDF :=
  diff_idempotent refDF tgtDF "name" "name" resDF (by rfl)

theorem mapFiles_none : ∀ files : List DataFrame,
    mapFiles none files = .ok files := by
  intro files
  induction files with
  | nil => rfl
  | cons f fs ih => simp [mapFiles, filterFile, ih]

theorem mapFiles_empty_string : ∀ files : List DataFrame,
    mapFiles (some "") files = mapFiles none files := by
  intro files
  induction files with
  | nil => rfl
  | cons f fs ih =>
    have he : filterFile (some "") f = .ok f := by
      simp only [filterFile]
      exact if_pos (by decide)
    simp only [mapFiles]
    rw [he, ih]
    rfl

theorem mapFiles_missing {c : String} (hc : c.isEmpty = false) :
    ∀ {files : List DataFrame}, (∃ f ∈ files, c ∉ f.cols) →
      mapFiles (some c) files = .error (.schemaMismatch c) := by
  intro files
  induction files with
  | nil => rintro ⟨f, hf, _⟩; simp at hf
  | cons f fs ih =>
    rintro ⟨g, hg, hgc⟩
    by_cases hf : c ∈ f.cols
    · have hrest : ∃ g ∈ fs, c ∉ g.cols := by
        rcases List.mem_cons.mp hg with rfl | hmem
        · exact absurd hf hgc
        · exact ⟨g, hmem, hgc⟩
      simp [mapFiles, filterFile, hc, hf, ih hrest]
    · simp [mapFiles, filterFile, hc, hf]

/-- C7: `combine_dataframes` on an empty file list returns absent (`None` in
the source) — not an empty table and not an error — for every
`column_filter` value. -/
theorem combine_empty_files (column_name : Option String) :
    combine_dataframes [] column_name = .ok none := rfl

/-- C2 counterexample: two files whose column sets differ (`["a"]` versus
`["b"]`) are combined without a filter, and `combine_dataframes` does NOT
fail with a `SchemaMismatch`: it returns the outer-union table with null
padding, exactly as `pd.concat` does. -/
theorem combine_mismatch_counterexample :
    dfA.cols ≠ dfB.cols ∧
    combine_dataframes [dfA, dfB] none =
      .ok (some ⟨["a", "b"],
        [[("a", Value.int 1), ("b", Value.null)],
         [("a", Value.null), ("b", Value.int 2)]]⟩) :=
  ⟨by decide, by rfl⟩

/-- C2 amended: `combine_dataframes` with no column filter never fails, even
on differing column sets: for every non-empty file list it returns the
`pd.concat` outer-union concatenation, padding missing columns with null. -/
theorem combine_none_concatenates (files : List DataFrame)
    (hne : files ≠ []) :
    combine_dataframes files none = .ok (some (concatDFs files)) := by
  rw [combine_dataframes, if_neg (by simpa using hne), mapFiles_none files]
  rfl

/-- Witness for the amended C2. -/
theorem combine_none_concatenates_witness :
    combine_dataframes [dfA, dfB] none = .ok (some (concatDFs [dfA, dfB])) :=
  combine_none_concatenates [dfA, dfB] (List.cons_ne_nil _ _)

/-- C8 counterexample: the empty string is a column name absent from
`dfA`'s columns, yet `combine_dataframes [dfA] (some "")` succeeds instead of
failing with `SchemaMismatch`: the Python truthiness test `if column_name:`
silently ignores an empty-string filter. -/
theorem combine_missing_filter_counterexample :
    ("" ∉ dfA.cols) ∧
    combine_dataframes [dfA] (some "") =
      .ok (some ⟨["a"], [[("a", Value.int 1)]]⟩) :=
  ⟨by decide, by rfl⟩

/-- C8 amended: for every non-empty file list and every NON-EMPTY filter
column name absent from at least one file's columns, `combine_dataframes`
fails with a `SchemaMismatch` naming that column. -/
theorem combine_missing_filter_column (files : List DataFrame) (c : String)
    (hne : files ≠ []) (hc : c.isEmpty = false)
    (hmiss : ∃ f ∈ files, c ∉ f.cols) :
    combine_dataframes files (some c) = .error (.schemaMismatch c) := by
  rw [combine_dataframes, if_neg (by simpa using hne), mapFiles_missing hc hmiss]
  rfl

/-- Witness for the amended C8. -/
theorem combine_missing_filter_column_witness :
    combine_dataframes [dfA] (some "b") = .error (.schemaMismatch "b") :=
  combine_missing_filter_column [dfA] "b" (List.cons_ne_nil _ _) rfl
    ⟨dfA, List.mem_cons_self _ _, by decide⟩

/-- C10: for every non-empty file list, an empty-string `column_filter` is
silently ignored: `combine_dataframes files (some "")` equals
`combine_dataframes files none`. -/
theorem combine_empty_string_filter (files : List DataFrame)
    (_hne : files ≠ []) :
    combine_dataframes files (some "") = combine_dataframes files none := by
  rw [combine_dataframes, combine_dataframes, mapFiles_empty_string files]

/-- Witness for C10. -/
theorem combine_empty_string_filter_witness :
    combine_dataframes [dfA] (some "") = combine_dataframes [dfA] none :=
  combine_empty_string_filter [dfA] (List.cons_ne_nil _ _)

/-- C9: for every comparison run, the reported match rate is
`(target_count - result_count) / target_count * 100` when the target row
count is positive, and is omitted when the target row count is zero. -/
theorem match_rate_formula (df1 df2 : DataFrame) (c1 c2 : String)
    (res : DataFrame)
    (_h : compare_csv_columns df1 df2 c1 c2 = .ok res) :
    (0 < df2.rows.length →
      overlap_percentage df2 res =
        some ((((df2.rows.length : ℚ) - (res.rows.length : ℚ)) /
          (df2.rows.length : ℚ)) * 100)) ∧
    (df2.rows.length = 0 → overlap_percentage df2 res = none) := by
  constructor
  · intro hpos
    simp [overlap_percentage, hpos]
  · intro hz
    simp [overlap_percentage, hz]

/-- Witness for C9 at the spec's end-to-end scenario (match rate 50%). -/
theorem match_rate_formula_witness :
    overlap_percentage tgtDF resDF =
      some ((((tgtDF.rows.length : ℚ) - (resDF.rows.length : ℚ)) /
        (tgtDF.rows.length : ℚ)) * 100) :=
  (match_rate_formula refDF tgtDF "name" "name" resDF (by rfl)).1 (by decide)

end CsvComp
